import Mathlib

/-!
Verification of the Direct Mounter (`createDomTreeMounter`) of
`src/src/mounter/domTree.tsx` against its natural-language specification.

The TypeScript code is shallowly embedded as pure Lean functions over an
explicit state:

* DOM nodes and React roots are identified by natural-number ids allocated
  from a counter (`MState.nextId`); `document.body` is the distinguished
  node id `documentBody = 0`.
* The registry `confirms : Record<string, ConfirmationEntry>` is an
  association list `List (String × Entry)`; JS object assignment and
  `delete` become `setConfirm` / `delConfirm`.
* `Math.random()`-based key generation takes the drawn number as an
  explicit oracle argument `r`.
* Steps that may throw in JS (`appendChild`, `createRoot`, `render`,
  `root.unmount`, `wrapper.remove`, container resolution) consult a
  `FailSpec` oracle saying whether the underlying operation throws and
  with which (opaque, numbered) error value; `try`/`catch` blocks become
  matches on that outcome.
* Component types and props are opaque and represented by numbers.
* Every operation additionally returns the list of observable events it
  performed, in order, so that ordering claims can be stated.
-/

/-- A DOM element created by `document.createElement('div')`: its id, the
parent it was (last) appended under, and whether it is currently attached. -/
structure DomNode where
  id : Nat
  parent : Nat
  attached : Bool
deriving DecidableEq, Repr

/-- A React root created by `createRoot(wrapper)`: its id, the container
node it is bound to, the currently rendered (component, props) content if
any, and whether `root.unmount()` has been called on it. -/
structure RootObj where
  id : Nat
  container : Nat
  content : Option (Nat × Nat)
  unmounted : Bool
deriving DecidableEq, Repr

/-- `ConfirmationEntry` from domTree.tsx: `{ wrapper: HTMLElement; root: Root }`,
with both objects referred to by id. -/
structure Entry where
  wrapper : Nat
  root : Nat
deriving DecidableEq, Repr

/-- The registry `confirms : Record<string, ConfirmationEntry>` as an
association list. -/
abbrev Registry := List (String × Entry)

/-- The mutable world the mounter acts on: the id allocator, all DOM nodes
created so far, all React roots created so far, and the registry. -/
structure MState where
  nextId : Nat
  nodes : List DomNode
  roots : List RootObj
  confirms : Registry
deriving DecidableEq, Repr

/-- The initial world: no created nodes, no roots, empty registry.  Id `0`
is reserved for `document.body`, so allocation starts at `1`. -/
def initState : MState := { nextId := 1, nodes := [], roots := [], confirms := [] }

/-- The id of `document.body`. -/
def documentBody : Nat := 0

/-- Observable events performed by `mount` / `unmount`, in program order. -/
inductive Ev where
  | createElement (node : Nat)
  | appendChild (parent node : Nat)
  | createRoot (root node : Nat)
  | registryInsert (key : String)
  | render (root comp props : Nat)
  | mountedCallback
  | registryDelete (key : String)
  | rootUnmounted (root : Nat)
  | warnRootUnmount (err : Nat)
  | wrapperRemoved (node : Nat)
  | warnWrapperRemove (err : Nat)
deriving DecidableEq, Repr

/-- Failure oracle: for each fallible step of `mount` / `unmount`, `none`
means the underlying operation succeeds, `some e` means it throws the
opaque error value `e`. -/
structure FailSpec where
  resolveErr : Option Nat
  appendErr : Option Nat
  createRootErr : Option Nat
  renderErr : Option Nat
  rootUnmountErr : Option Nat
  removeErr : Option Nat
deriving DecidableEq, Repr

/-- The all-success failure oracle. -/
def okFS : FailSpec := ⟨none, none, none, none, none, none⟩

/-- JS object read `confirms[key]`. -/
def lookupConfirm : Registry → String → Option Entry
  | [], _ => none
  | (k, e) :: rest, key => if k = key then some e else lookupConfirm rest key

/-- JS `delete confirms[key]`. -/
def delConfirm : Registry → String → Registry
  | [], _ => []
  | (k, e) :: rest, key =>
      if k = key then delConfirm rest key else (k, e) :: delConfirm rest key

/-- JS object write `confirms[key] = entry` (overwrites any entry at `key`). -/
def setConfirm (m : Registry) (key : String) (e : Entry) : Registry :=
  (key, e) :: delConfirm m key

/-- The keys currently tracked by a registry. -/
def keysOf (m : Registry) : List String := m.map Prod.fst

/-- `parent.appendChild(wrapper)`: mark the node with id `i` attached. -/
def attachNode : List DomNode → Nat → List DomNode
  | [], _ => []
  | n :: rest, i =>
      (if n.id = i then { n with attached := true } else n) :: attachNode rest i

/-- `wrapper.remove()`: mark the node with id `i` detached. -/
def detachNode : List DomNode → Nat → List DomNode
  | [], _ => []
  | n :: rest, i =>
      (if n.id = i then { n with attached := false } else n) :: detachNode rest i

/-- `root.render(<Component {...props} />)` on the root with id `i`. -/
def renderRoot : List RootObj → Nat → Nat → Nat → List RootObj
  | [], _, _, _ => []
  | rt :: rest, i, comp, props =>
      (if rt.id = i then { rt with content := some (comp, props) } else rt)
        :: renderRoot rest i comp props

/-- `root.unmount()` on the root with id `i`: its rendered content is torn
down and the root is dead. -/
def unmountRoot : List RootObj → Nat → List RootObj
  | [], _ => []
  | rt :: rest, i =>
      (if rt.id = i then { rt with content := none, unmounted := true } else rt)
        :: unmountRoot rest i

/-- Look a created DOM node up by id. -/
def nodeById : List DomNode → Nat → Option DomNode
  | [], _ => none
  | n :: rest, i => if n.id = i then some n else nodeById rest i

/-- Look a React root up by id. -/
def rootById : List RootObj → Nat → Option RootObj
  | [], _ => none
  | rt :: rest, i => if rt.id = i then some rt else rootById rest i

/-- domTree.tsx line 16:
`const generateKey = () => Math.floor(Math.random() * (1 << 30)).toString(16);`
with the drawn number supplied as the oracle argument `r`
(`Math.floor(Math.random() * (1 << 30))` is a natural below `2 ^ 30`). -/
def generateKey (r : Nat) : String := (Nat.toDigits 16 (r % 2 ^ 30)).asString

/-- domTree.tsx lines 18-19:
`const getParentNode = (mountNode?) => mountNode || defaultMountNode || document.body`. -/
def getParentNode (defaultMountNode mountNode : Option Nat) : Nat :=
  match mountNode with
  | some n => n
  | none =>
      match defaultMountNode with
      | some d => d
      | none => documentBody

/-- domTree.tsx lines 21-38, `mount`.  Arguments: `hasMounted` is whether
`callbacks.mounted` is set (`createDomTreeMounter` never sets it),
`defaultMountNode` the construction-time default container, `fs` the
failure oracle, `comp`/`props` the component and its props, `mountNode`
the per-call container override, `r` the random draw, `s` the world.
Returns the JS result (the returned key, or the re-thrown error), the
world after the call, and the event trace.  Each `some e` branch is the
`catch` block: `delete confirms[key]; throw error;` with all state
changes made before the throwing step kept, as in JS. -/
def mount (hasMounted : Bool) (defaultMountNode : Option Nat) (fs : FailSpec)
    (comp props : Nat) (mountNode : Option Nat) (r : Nat) (s : MState) :
    Except Nat String × MState × List Ev :=
  let key := generateKey r
  match fs.resolveErr with
  | some e => (Except.error e, { s with confirms := delConfirm s.confirms key }, [])
  | none =>
    let parent := getParentNode defaultMountNode mountNode
    let wid := s.nextId
    let s1 : MState := { s with
      nextId := s.nextId + 1,
      nodes := s.nodes ++ [{ id := wid, parent := parent, attached := false }] }
    match fs.appendErr with
    | some e =>
        (Except.error e, { s1 with confirms := delConfirm s1.confirms key },
          [Ev.createElement wid])
    | none =>
      let s2 : MState := { s1 with nodes := attachNode s1.nodes wid }
      match fs.createRootErr with
      | some e =>
          (Except.error e, { s2 with confirms := delConfirm s2.confirms key },
            [Ev.createElement wid, Ev.appendChild parent wid])
      | none =>
        let rid := s2.nextId
        let s3 : MState := { s2 with
          nextId := s2.nextId + 1,
          roots := s2.roots ++
            [{ id := rid, container := wid, content := none, unmounted := false }] }
        let s4 : MState := { s3 with
          confirms := setConfirm s3.confirms key { wrapper := wid, root := rid } }
        match fs.renderErr with
        | some e =>
            (Except.error e, { s4 with confirms := delConfirm s4.confirms key },
              [Ev.createElement wid, Ev.appendChild parent wid,
               Ev.createRoot rid wid, Ev.registryInsert key])
        | none =>
          let s5 : MState := { s4 with roots := renderRoot s4.roots rid comp props }
          let tr := [Ev.createElement wid, Ev.appendChild parent wid,
                     Ev.createRoot rid wid, Ev.registryInsert key,
                     Ev.render rid comp props]
          (Except.ok key, s5, if hasMounted then tr ++ [Ev.mountedCallback] else tr)

/-- domTree.tsx lines 46-50: `try { confirmation.root.unmount(); } catch
(error) { console.warn(...); }` — attempt to unmount the root with id
`rid`, turning a throw into a warning event. -/
def tryRootUnmount (fs : FailSpec) (rid : Nat) (s : MState) : MState × List Ev :=
  match fs.rootUnmountErr with
  | some e => (s, [Ev.warnRootUnmount e])
  | none => ({ s with roots := unmountRoot s.roots rid }, [Ev.rootUnmounted rid])

/-- domTree.tsx lines 51-55: `try { confirmation.wrapper.remove(); } catch
(error) { console.warn(...); }` — attempt to detach the wrapper node with
id `wid`, turning a throw into a warning event. -/
def tryWrapperRemove (fs : FailSpec) (wid : Nat) (s : MState) : MState × List Ev :=
  match fs.removeErr with
  | some e => (s, [Ev.warnWrapperRemove e])
  | none => ({ s with nodes := detachNode s.nodes wid }, [Ev.wrapperRemoved wid])

/-- domTree.tsx lines 40-56, `unmount`: look the key up; if untracked,
return; otherwise delete the registry entry, then best-effort unmount the
root and best-effort remove the wrapper.  The `Except` result records
whether the call threw: the two `try`/`catch` blocks make it `ok` always. -/
def unmount (fs : FailSpec) (key : String) (s : MState) :
    Except Nat Unit × MState × List Ev :=
  match lookupConfirm s.confirms key with
  | none => (Except.ok (), s, [])
  | some entry =>
      let s1 : MState := { s with confirms := delConfirm s.confirms key }
      let p2 := tryRootUnmount fs entry.root s1
      let p3 := tryWrapperRemove fs entry.wrapper p2.1
      (Except.ok (), p3.1, Ev.registryDelete key :: (p2.2 ++ p3.2))

/-- The object `createDomTreeMounter` returns: `{ mount, unmount, options: {} }`. -/
structure MounterObj where
  mount : Nat → Nat → Option Nat → Nat → FailSpec → MState →
    Except Nat String × MState × List Ev
  unmount : String → FailSpec → MState → Except Nat Unit × MState × List Ev
  options : List (String × String)

/-- domTree.tsx lines 10-62, `createDomTreeMounter`: the local
`callbacks : { mounted?: () => void }` record is created empty and no
reference to it escapes (the returned object holds only `mount`,
`unmount` and a fresh empty `options`), so `callbacks.mounted` is `none`
in every execution; `mount` is therefore instantiated with
`hasMounted = false`. -/
def createDomTreeMounter (defaultMountNode : Option Nat) : MounterObj :=
  { mount := fun comp props mountNode r fs s =>
      mount false defaultMountNode fs comp props mountNode r s,
    unmount := fun key fs s => unmount fs key s,
    options := [] }

/-- One externally requested operation on a Direct Mounter. -/
inductive Op where
  | mountOp (fs : FailSpec) (comp props : Nat) (mountNode : Option Nat) (r : Nat)
  | unmountOp (fs : FailSpec) (key : String)
deriving DecidableEq, Repr

/-- The state transition of one operation. -/
def step (hasMounted : Bool) (dmn : Option Nat) (s : MState) : Op → MState
  | Op.mountOp fs comp props mountNode r =>
      (mount hasMounted dmn fs comp props mountNode r s).2.1
  | Op.unmountOp fs key => (unmount fs key s).2.1

/-- Run a sequence of operations from a state. -/
def run (hasMounted : Bool) (dmn : Option Nat) : MState → List Op → MState
  | s, [] => s
  | s, op :: rest => run hasMounted dmn (step hasMounted dmn s op) rest

/-- The key a mount operation generates (none for unmount operations). -/
def opGenKey : Op → Option String
  | Op.mountOp _ _ _ _ r => some (generateKey r)
  | Op.unmountOp _ _ => none

/-- All keys generated by the mount operations of a sequence, in order. -/
def genKeys (ops : List Op) : List String := ops.filterMap opGenKey

/-- Whether a trace contains an attempt (successful or caught-and-warned)
to remove the wrapper node `wid`. -/
def removalAttempted (tr : List Ev) (wid : Nat) : Prop :=
  Ev.wrapperRemoved wid ∈ tr ∨ ∃ e, Ev.warnWrapperRemove e ∈ tr

/-- Failure oracle that makes only the render step throw (error value 9). -/
def fsRenderFail : FailSpec := ⟨none, none, none, some 9, none, none⟩

/-- Failure oracle that makes both teardown steps throw (errors 7 and 8). -/
def fsTeardownFail : FailSpec := ⟨none, none, none, none, some 7, some 8⟩

/-- A world with one instance mounted (key `generateKey 0`). -/
def sOne : MState := (mount false none okFS 1 2 none 0 initState).2.1

/-- A world with two instances mounted (keys `generateKey 0`, `generateKey 1`). -/
def sTwo : MState :=
  run false none initState [Op.mountOp okFS 1 2 none 0, Op.mountOp okFS 3 4 none 1]

/-- Position of the first occurrence of an event in a trace. -/
def idxOfEv : List Ev → Ev → Option Nat
  | [], _ => none
  | e :: rest, a => if e = a then some 0 else (idxOfEv rest a).map (· + 1)

/-- The world after a `mount` immediately followed by an `unmount` with the
key the mount returned (which is `generateKey r`). -/
def mountThenUnmount (hm : Bool) (dmn : Option Nat) (fs1 fs2 : FailSpec)
    (comp props : Nat) (mn : Option Nat) (r : Nat) (s : MState) : MState :=
  (unmount fs2 (generateKey r) (mount hm dmn fs1 comp props mn r s).2.1).2.1

theorem lookup_delConfirm_self (m : Registry) (k : String) :
    lookupConfirm (delConfirm m k) k = none := by
  induction m with
  | nil => rfl
  | cons p rest ih =>
      obtain ⟨k1, e⟩ := p
      by_cases h : k1 = k <;> simp [delConfirm, lookupConfirm, h, ih]

theorem lookup_none_iff_not_mem_keys (m : Registry) (k : String) :
    lookupConfirm m k = none ↔ k ∉ keysOf m := by
  induction m with
  | nil => simp [lookupConfirm, keysOf]
  | cons p rest ih =>
      obtain ⟨k1, e⟩ := p
      by_cases h : k1 = k
      · subst h; simp [lookupConfirm, keysOf]
      · simp [lookupConfirm, keysOf, h, ih, Ne.symm h]

theorem delConfirm_eq_self (m : Registry) (k : String)
    (h : lookupConfirm m k = none) : delConfirm m k = m := by
  induction m with
  | nil => rfl
  | cons p rest ih =>
      obtain ⟨k1, e⟩ := p
      by_cases hk : k1 = k
      · simp [lookupConfirm, hk] at h
      · simp [lookupConfirm, hk] at h
        simp [delConfirm, hk, ih h]

theorem keysOf_nil : keysOf [] = [] := rfl

theorem keysOf_cons (k : String) (e : Entry) (m : Registry) :
    keysOf ((k, e) :: m) = k :: keysOf m := rfl

theorem lookupConfirm_cons_eq (rest : Registry) (k : String) (e : Entry) :
    lookupConfirm ((k, e) :: rest) k = some e := by
  simp [lookupConfirm]

theorem lookupConfirm_cons_ne (rest : Registry) (k1 k : String) (e : Entry)
    (h : k1 ≠ k) : lookupConfirm ((k1, e) :: rest) k = lookupConfirm rest k := by
  simp [lookupConfirm, h]

theorem delConfirm_cons_eq (rest : Registry) (k : String) (e : Entry) :
    delConfirm ((k, e) :: rest) k = delConfirm rest k := by
  simp [delConfirm]

theorem delConfirm_cons_ne (rest : Registry) (k1 k : String) (e : Entry)
    (h : k1 ≠ k) : delConfirm ((k1, e) :: rest) k = (k1, e) :: delConfirm rest k := by
  simp [delConfirm, h]

theorem lookup_delConfirm_ne (m : Registry) (k k1 : String) (h : k1 ≠ k) :
    lookupConfirm (delConfirm m k) k1 = lookupConfirm m k1 := by
  induction m with
  | nil => rfl
  | cons p rest ih =>
      obtain ⟨k2, e⟩ := p
      by_cases h2 : k2 = k
      · subst h2
        rw [delConfirm_cons_eq, ih, lookupConfirm_cons_ne rest k2 k1 e (fun hk => h hk.symm)]
      · rw [delConfirm_cons_ne rest k2 k e h2]
        by_cases h3 : k2 = k1
        · subst h3
          rw [lookupConfirm_cons_eq, lookupConfirm_cons_eq]
        · rw [lookupConfirm_cons_ne _ k2 k1 e h3, lookupConfirm_cons_ne _ k2 k1 e h3, ih]

theorem lookup_setConfirm_self (m : Registry) (k : String) (e : Entry) :
    lookupConfirm (setConfirm m k e) k = some e := by
  simp [setConfirm, lookupConfirm]

theorem lookup_setConfirm_ne (m : Registry) (k k1 : String) (e : Entry) (h : k1 ≠ k) :
    lookupConfirm (setConfirm m k e) k1 = lookupConfirm m k1 := by
  simp [setConfirm, lookupConfirm, Ne.symm h, lookup_delConfirm_ne m k k1 h]

theorem mem_keys_delConfirm (m : Registry) (k k0 : String)
    (h : k ∈ keysOf (delConfirm m k0)) : k ∈ keysOf m := by
  induction m with
  | nil => exact h
  | cons p rest ih =>
      obtain ⟨k1, e⟩ := p
      rw [keysOf_cons]
      by_cases h1 : k1 = k0
      · simp only [delConfirm, if_pos h1] at h
        exact List.mem_cons_of_mem _ (ih h)
      · simp only [delConfirm, if_neg h1, keysOf_cons] at h
        rcases List.mem_cons.mp h with h | h
        · exact h ▸ List.mem_cons_self _ _
        · exact List.mem_cons_of_mem _ (ih h)

theorem not_mem_keys_delConfirm_self (m : Registry) (k : String) :
    k ∉ keysOf (delConfirm m k) :=
  (lookup_none_iff_not_mem_keys (delConfirm m k) k).mp (lookup_delConfirm_self m k)

theorem mem_keys_setConfirm (m : Registry) (k k0 : String) (e : Entry)
    (h : k ∈ keysOf (setConfirm m k0 e)) : k = k0 ∨ k ∈ keysOf m := by
  rw [setConfirm, keysOf_cons] at h
  rcases List.mem_cons.mp h with h | h
  · exact Or.inl h
  · exact Or.inr (mem_keys_delConfirm m k k0 h)

theorem nodup_keys_delConfirm (m : Registry) (k : String)
    (h : (keysOf m).Nodup) : (keysOf (delConfirm m k)).Nodup := by
  induction m with
  | nil => exact h
  | cons p rest ih =>
      obtain ⟨k1, e⟩ := p
      rw [keysOf_cons] at h
      obtain ⟨hnotmem, hrest⟩ := List.nodup_cons.mp h
      by_cases h1 : k1 = k
      · simp only [delConfirm, if_pos h1]
        exact ih hrest
      · simp only [delConfirm, if_neg h1, keysOf_cons]
        exact List.nodup_cons.mpr
          ⟨fun hmem => hnotmem (mem_keys_delConfirm rest k1 k hmem), ih hrest⟩

theorem nodup_keys_setConfirm (m : Registry) (k : String) (e : Entry)
    (h : (keysOf m).Nodup) : (keysOf (setConfirm m k e)).Nodup := by
  rw [setConfirm, keysOf_cons]
  exact List.nodup_cons.mpr
    ⟨not_mem_keys_delConfirm_self m k, nodup_keys_delConfirm m k h⟩

theorem tryRootUnmount_confirms (fs : FailSpec) (rid : Nat) (s : MState) :
    (tryRootUnmount fs rid s).1.confirms = s.confirms := by
  cases h : fs.rootUnmountErr <;> simp [tryRootUnmount, h]

theorem tryWrapperRemove_confirms (fs : FailSpec) (wid : Nat) (s : MState) :
    (tryWrapperRemove fs wid s).1.confirms = s.confirms := by
  cases h : fs.removeErr <;> simp [tryWrapperRemove, h]

theorem tryRootUnmount_nodes (fs : FailSpec) (rid : Nat) (s : MState) :
    (tryRootUnmount fs rid s).1.nodes = s.nodes := by
  cases h : fs.rootUnmountErr <;> simp [tryRootUnmount, h]

theorem tryWrapperRemove_roots (fs : FailSpec) (wid : Nat) (s : MState) :
    (tryWrapperRemove fs wid s).1.roots = s.roots := by
  cases h : fs.removeErr <;> simp [tryWrapperRemove, h]

theorem unmount_noop_of_none (fs : FailSpec) (k : String) (s : MState)
    (h : lookupConfirm s.confirms k = none) :
    unmount fs k s = (Except.ok (), s, []) := by
  simp [unmount, h]

theorem unmount_confirms_of_some (fs : FailSpec) (k : String) (s : MState) (e : Entry)
    (h : lookupConfirm s.confirms k = some e) :
    (unmount fs k s).2.1.confirms = delConfirm s.confirms k := by
  simp [unmount, h, tryWrapperRemove_confirms, tryRootUnmount_confirms]

theorem lookup_unmount_self (fs : FailSpec) (k : String) (s : MState) :
    lookupConfirm (unmount fs k s).2.1.confirms k = none := by
  cases h : lookupConfirm s.confirms k with
  | none => rw [unmount_noop_of_none fs k s h]; exact h
  | some e => rw [unmount_confirms_of_some fs k s e h]; exact lookup_delConfirm_self _ _

theorem attachNode_append (l1 l2 : List DomNode) (i : Nat) :
    attachNode (l1 ++ l2) i = attachNode l1 i ++ attachNode l2 i := by
  induction l1 with
  | nil => rfl
  | cons n rest ih => simp [attachNode, ih]

theorem detachNode_append (l1 l2 : List DomNode) (i : Nat) :
    detachNode (l1 ++ l2) i = detachNode l1 i ++ detachNode l2 i := by
  induction l1 with
  | nil => rfl
  | cons n rest ih => simp [detachNode, ih]

theorem renderRoot_append (l1 l2 : List RootObj) (i c p : Nat) :
    renderRoot (l1 ++ l2) i c p = renderRoot l1 i c p ++ renderRoot l2 i c p := by
  induction l1 with
  | nil => rfl
  | cons rt rest ih => simp [renderRoot, ih]

theorem unmountRoot_append (l1 l2 : List RootObj) (i : Nat) :
    unmountRoot (l1 ++ l2) i = unmountRoot l1 i ++ unmountRoot l2 i := by
  induction l1 with
  | nil => rfl
  | cons rt rest ih => simp [unmountRoot, ih]

/-- C3: Unmount idempotence and unknown-key no-op — unmounting a key not
currently tracked by the registry (never issued or already removed)
returns without changing any state and without throwing, and calling
`unmount` twice with the same key has exactly the same effect as calling
it once. -/
theorem C3_unmount_idempotent (fs1 fs2 : FailSpec) (k : String) (s : MState) :
    (lookupConfirm s.confirms k = none → unmount fs1 k s = (Except.ok (), s, [])) ∧
    unmount fs2 k (unmount fs1 k s).2.1 = (Except.ok (), (unmount fs1 k s).2.1, []) :=
  ⟨fun h => unmount_noop_of_none fs1 k s h,
   unmount_noop_of_none fs2 k _ (lookup_unmount_self fs1 k s)⟩

/-- Witness for C3 at concrete inputs: the never-issued key "dead" on the
empty world, and a second unmount of the key tracked in `sOne`. -/
theorem C3_witness :
    unmount okFS "dead" initState = (Except.ok (), initState, []) ∧
    unmount okFS (generateKey 0) (unmount okFS (generateKey 0) sOne).2.1 =
      (Except.ok (), (unmount okFS (generateKey 0) sOne).2.1, []) :=
  ⟨(C3_unmount_idempotent okFS okFS "dead" initState).1 rfl,
   (C3_unmount_idempotent okFS okFS (generateKey 0) sOne).2⟩

/-- C5: when `unmount` is called with a currently-tracked key, the registry
entry is deleted before any resource-release step (the registry-delete
event heads the teardown trace), the registry has no entry for that key
afterwards, and a repeated unmount of the same key is a complete no-op,
so the resources cannot be double-destroyed. -/
theorem C5_registry_removed_first (fs fs2 : FailSpec) (k : String) (s : MState)
    (e : Entry) (h : lookupConfirm s.confirms k = some e) :
    (unmount fs k s).2.2.head? = some (Ev.registryDelete k) ∧
    lookupConfirm (unmount fs k s).2.1.confirms k = none ∧
    unmount fs2 k (unmount fs k s).2.1 = (Except.ok (), (unmount fs k s).2.1, []) := by
  refine ⟨?_, lookup_unmount_self fs k s,
    unmount_noop_of_none fs2 k _ (lookup_unmount_self fs k s)⟩
  simp [unmount, h]

/-- Witness for C5: unmounting the tracked key of `sOne` while both
teardown steps throw. -/
theorem C5_witness :
    (unmount fsTeardownFail (generateKey 0) sOne).2.2.head? =
      some (Ev.registryDelete (generateKey 0)) ∧
    lookupConfirm (unmount fsTeardownFail (generateKey 0) sOne).2.1.confirms
      (generateKey 0) = none ∧
    unmount fsTeardownFail (generateKey 0) (unmount fsTeardownFail (generateKey 0) sOne).2.1 =
      (Except.ok (), (unmount fsTeardownFail (generateKey 0) sOne).2.1, []) :=
  C5_registry_removed_first fsTeardownFail fsTeardownFail (generateKey 0) sOne
    ⟨1, 2⟩ rfl

/-- C4: teardown never throws — `unmount` always returns normally; a throw
from unmounting the rendering root is logged as a warning and does not
prevent the wrapper-removal step from being attempted, and a throw from
removing the wrapper is likewise logged without propagating. -/
theorem C4_teardown_never_throws (fs : FailSpec) (k : String) (s : MState) :
    (unmount fs k s).1 = Except.ok () ∧
    (∀ e entry, lookupConfirm s.confirms k = some entry → fs.rootUnmountErr = some e →
      Ev.warnRootUnmount e ∈ (unmount fs k s).2.2 ∧
      removalAttempted (unmount fs k s).2.2 entry.wrapper) ∧
    (∀ e entry, lookupConfirm s.confirms k = some entry → fs.removeErr = some e →
      Ev.warnWrapperRemove e ∈ (unmount fs k s).2.2) := by
  refine ⟨?_, ?_, ?_⟩
  · cases h : lookupConfirm s.confirms k <;> simp [unmount, h]
  · intro e entry h he
    cases hr : fs.removeErr <;>
      simp [unmount, h, tryRootUnmount, he, tryWrapperRemove, hr, removalAttempted]
  · intro e entry h he
    cases hr : fs.rootUnmountErr <;>
      simp [unmount, h, tryRootUnmount, hr, tryWrapperRemove, he]

/-- Witness for C4: unmounting the tracked key of `sOne` with both
teardown steps throwing (errors 7 and 8). -/
theorem C4_witness :
    (unmount fsTeardownFail (generateKey 0) sOne).1 = Except.ok () ∧
    (Ev.warnRootUnmount 7 ∈ (unmount fsTeardownFail (generateKey 0) sOne).2.2 ∧
     removalAttempted (unmount fsTeardownFail (generateKey 0) sOne).2.2 1) ∧
    Ev.warnWrapperRemove 8 ∈ (unmount fsTeardownFail (generateKey 0) sOne).2.2 :=
  ⟨(C4_teardown_never_throws fsTeardownFail (generateKey 0) sOne).1,
   (C4_teardown_never_throws fsTeardownFail (generateKey 0) sOne).2.1 7 ⟨1, 2⟩ rfl rfl,
   (C4_teardown_never_throws fsTeardownFail (generateKey 0) sOne).2.2 8 ⟨1, 2⟩ rfl rfl⟩

/-- C10: the "mounted" callback is unreachable through the public
interface — the mounter returned by `createDomTreeMounter` never emits the
mounted-callback event on any `mount` call, in any world, under any
failure oracle. -/
theorem C10_mounted_callback_unreachable (dmn : Option Nat) (comp props : Nat)
    (mn : Option Nat) (r : Nat) (fs : FailSpec) (s : MState) :
    Ev.mountedCallback ∉ ((createDomTreeMounter dmn).mount comp props mn r fs s).2.2 := by
  obtain ⟨f1, f2, f3, f4, f5, f6⟩ := fs
  cases f1 <;> cases f2 <;> cases f3 <;> cases f4 <;>
    simp [createDomTreeMounter, mount]

/-- C2 (code-bug demonstration): when the render step throws (error 9)
during `mount` on the empty world, the error is re-thrown and the registry
is left clean, but the freshly created wrapper node (id 1) is still
attached under the target container `document.body`, and the created root
(id 2) is never unmounted — residue the claim forbids. -/
theorem C2_mount_failure_residue_demo :
    (mount false none fsRenderFail 1 2 none 0 initState).1 = Except.error 9 ∧
    lookupConfirm (mount false none fsRenderFail 1 2 none 0 initState).2.1.confirms
      (generateKey 0) = none ∧
    nodeById (mount false none fsRenderFail 1 2 none 0 initState).2.1.nodes 1 =
      some { id := 1, parent := documentBody, attached := true } ∧
    rootById (mount false none fsRenderFail 1 2 none 0 initState).2.1.roots 2 =
      some { id := 2, container := 1, content := none, unmounted := false } :=
  ⟨rfl, rfl, rfl, rfl⟩

/-- C7: target-container resolution — the parent is the per-call
`mountNode` when provided, else the construction-time `defaultMountNode`
when provided, else `document.body`; and `mount` appends its fresh wrapper
node under exactly that resolved parent. -/
theorem C7_target_container_resolution (dmn mn : Option Nat) (hm : Bool)
    (fs : FailSpec) (comp props r : Nat) (s : MState)
    (h1 : fs.resolveErr = none) (h2 : fs.appendErr = none) :
    (∀ n, mn = some n → getParentNode dmn mn = n) ∧
    (mn = none → ∀ d, dmn = some d → getParentNode dmn mn = d) ∧
    (mn = none → dmn = none → getParentNode dmn mn = documentBody) ∧
    Ev.appendChild (getParentNode dmn mn) s.nextId ∈
      (mount hm dmn fs comp props mn r s).2.2 ∧
    ({ id := s.nextId, parent := getParentNode dmn mn, attached := true } : DomNode)
      ∈ (mount hm dmn fs comp props mn r s).2.1.nodes := by
  refine ⟨?_, ?_, ?_, ?_, ?_⟩
  · intro n hn; subst hn; rfl
  · intro hmn d hd; subst hmn; subst hd; rfl
  · intro hmn hd; subst hmn; subst hd; rfl
  · cases hc : fs.createRootErr <;> cases hrr : fs.renderErr <;> cases hm <;>
      simp [mount, h1, h2, hc, hrr]
  · cases hc : fs.createRootErr <;> cases hrr : fs.renderErr <;> cases hm <;>
      simp [mount, h1, h2, hc, hrr, attachNode_append, attachNode]

/-- Witness for C7: a mount with an explicit per-call container (id 5) on
the empty world, with a default container (id 3) also configured. -/
theorem C7_witness :
    (∀ n, (some 5 : Option Nat) = some n → getParentNode (some 3) (some 5) = n) ∧
    ((some 5 : Option Nat) = none → ∀ d, (some 3 : Option Nat) = some d →
      getParentNode (some 3) (some 5) = d) ∧
    ((some 5 : Option Nat) = none → (some 3 : Option Nat) = none →
      getParentNode (some 3) (some 5) = documentBody) ∧
    Ev.appendChild (getParentNode (some 3) (some 5)) initState.nextId ∈
      (mount false (some 3) okFS 1 2 (some 5) 0 initState).2.2 ∧
    ({ id := initState.nextId, parent := getParentNode (some 3) (some 5),
       attached := true } : DomNode)
      ∈ (mount false (some 3) okFS 1 2 (some 5) 0 initState).2.1.nodes :=
  C7_target_container_resolution (some 3) (some 5) false okFS 1 2 0 initState rfl rfl

/-- C9 counterexample: on a concrete successful mount the registry-insert
event occurs at position 3 of the trace and the render event at position
4 — the {root, wrapper} pair is recorded in the registry strictly BEFORE
the component is rendered, not after as the claim's step order states. -/
theorem C9_counterexample :
    (mount false none okFS 5 7 none 3 initState).2.2 =
      [Ev.createElement 1, Ev.appendChild documentBody 1, Ev.createRoot 2 1,
       Ev.registryInsert (generateKey 3), Ev.render 2 5 7] ∧
    idxOfEv (mount false none okFS 5 7 none 3 initState).2.2
      (Ev.registryInsert (generateKey 3)) = some 3 ∧
    idxOfEv (mount false none okFS 5 7 none 3 initState).2.2 (Ev.render 2 5 7) = some 4 :=
  ⟨rfl, rfl, rfl⟩

/-- C9 (amended): on every successful mount the steps are, in order:
create the fresh child node, append it under the resolved target
container, create the rendering root bound to it, record the
{root, wrapper} pair in the registry under the returned key, render the
component with the given props, and only then invoke the optional
"mounted" callback (absent when unset); the final state holds the
attached wrapper, the rendered root, and the registry entry. -/
theorem C9_mount_postcondition (hm : Bool) (dmn : Option Nat) (fs : FailSpec)
    (comp props r : Nat) (mn : Option Nat) (s : MState)
    (h1 : fs.resolveErr = none) (h2 : fs.appendErr = none)
    (h3 : fs.createRootErr = none) (h4 : fs.renderErr = none) :
    (mount hm dmn fs comp props mn r s).1 = Except.ok (generateKey r) ∧
    (mount hm dmn fs comp props mn r s).2.2 =
      [Ev.createElement s.nextId,
       Ev.appendChild (getParentNode dmn mn) s.nextId,
       Ev.createRoot (s.nextId + 1) s.nextId,
       Ev.registryInsert (generateKey r),
       Ev.render (s.nextId + 1) comp props] ++
      (if hm then [Ev.mountedCallback] else []) ∧
    ({ id := s.nextId, parent := getParentNode dmn mn, attached := true } : DomNode)
      ∈ (mount hm dmn fs comp props mn r s).2.1.nodes ∧
    ({ id := s.nextId + 1, container := s.nextId, content := some (comp, props),
       unmounted := false } : RootObj) ∈ (mount hm dmn fs comp props mn r s).2.1.roots ∧
    lookupConfirm (mount hm dmn fs comp props mn r s).2.1.confirms (generateKey r) =
      some { wrapper := s.nextId, root := s.nextId + 1 } := by
  refine ⟨?_, ?_, ?_, ?_, ?_⟩
  · simp [mount, h1, h2, h3, h4]
  · cases hm <;> simp [mount, h1, h2, h3, h4]
  · simp [mount, h1, h2, h3, h4, attachNode_append, attachNode]
  · simp [mount, h1, h2, h3, h4, renderRoot_append, renderRoot]
  · simp [mount, h1, h2, h3, h4, lookup_setConfirm_self]

/-- Witness for C9 at a concrete successful mount with the callback unset. -/
theorem C9_witness :
    (mount false none okFS 5 7 none 3 initState).1 = Except.ok (generateKey 3) ∧
    (mount false none okFS 5 7 none 3 initState).2.2 =
      [Ev.createElement initState.nextId,
       Ev.appendChild (getParentNode none none) initState.nextId,
       Ev.createRoot (initState.nextId + 1) initState.nextId,
       Ev.registryInsert (generateKey 3),
       Ev.render (initState.nextId + 1) 5 7] ++
      (if false then [Ev.mountedCallback] else []) ∧
    ({ id := initState.nextId, parent := getParentNode none none,
       attached := true } : DomNode)
      ∈ (mount false none okFS 5 7 none 3 initState).2.1.nodes ∧
    ({ id := initState.nextId + 1, container := initState.nextId,
       content := some (5, 7), unmounted := false } : RootObj)
      ∈ (mount false none okFS 5 7 none 3 initState).2.1.roots ∧
    lookupConfirm (mount false none okFS 5 7 none 3 initState).2.1.confirms
      (generateKey 3) =
      some { wrapper := initState.nextId, root := initState.nextId + 1 } :=
  C9_mount_postcondition false none okFS 5 7 3 none initState rfl rfl rfl rfl

theorem nodeById_detachNode_ne (ns : List DomNode) (i j : Nat) (h : j ≠ i) :
    nodeById (detachNode ns i) j = nodeById ns j := by
  induction ns with
  | nil => rfl
  | cons n rest ih =>
      by_cases hni : n.id = i
      · simp [detachNode, nodeById, hni, Ne.symm h, ih]
      · simp only [detachNode, if_neg hni, nodeById, ih]

theorem rootById_unmountRoot_ne (rs : List RootObj) (i j : Nat) (h : j ≠ i) :
    rootById (unmountRoot rs i) j = rootById rs j := by
  induction rs with
  | nil => rfl
  | cons rt rest ih =>
      by_cases hri : rt.id = i
      · simp [unmountRoot, rootById, hri, Ne.symm h, ih]
      · simp only [unmountRoot, if_neg hri, rootById, ih]

/-- C8: cross-key frame condition — unmounting one tracked key leaves the
registry entry, the rendering root, and the wrapper node of every other
tracked key (whose resources are distinct objects, as mount creates them
fresh) completely unchanged. -/
theorem C8_cross_key_frame (fs : FailSpec) (k k1 : String) (s : MState)
    (e e1 : Entry) (hk : lookupConfirm s.confirms k = some e)
    (hk1 : lookupConfirm s.confirms k1 = some e1) (hne : k1 ≠ k)
    (hw : e1.wrapper ≠ e.wrapper) (hr : e1.root ≠ e.root) :
    lookupConfirm (unmount fs k s).2.1.confirms k1 = some e1 ∧
    rootById (unmount fs k s).2.1.roots e1.root = rootById s.roots e1.root ∧
    nodeById (unmount fs k s).2.1.nodes e1.wrapper = nodeById s.nodes e1.wrapper := by
  refine ⟨?_, ?_, ?_⟩
  · rw [unmount_confirms_of_some fs k s e hk, lookup_delConfirm_ne _ _ _ hne, hk1]
  · cases hru : fs.rootUnmountErr <;> cases hrm : fs.removeErr <;>
      simp [unmount, hk, tryRootUnmount, tryWrapperRemove, hru, hrm,
        rootById_unmountRoot_ne _ _ _ hr]
  · cases hru : fs.rootUnmountErr <;> cases hrm : fs.removeErr <;>
      simp [unmount, hk, tryRootUnmount, tryWrapperRemove, hru, hrm,
        nodeById_detachNode_ne _ _ _ hw]

/-- Witness for C8: in the two-instance world `sTwo`, unmounting the first
key leaves the second key's entry, root and wrapper untouched. -/
theorem C8_witness :
    lookupConfirm (unmount okFS (generateKey 0) sTwo).2.1.confirms (generateKey 1) =
      some ⟨3, 4⟩ ∧
    rootById (unmount okFS (generateKey 0) sTwo).2.1.roots 4 = rootById sTwo.roots 4 ∧
    nodeById (unmount okFS (generateKey 0) sTwo).2.1.nodes 3 = nodeById sTwo.nodes 3 :=
  C8_cross_key_frame okFS (generateKey 0) (generateKey 1) sTwo ⟨1, 2⟩ ⟨3, 4⟩
    rfl rfl (by decide) (by decide) (by decide)

/-- C6 counterexample: starting from the world `sOne` whose registry
tracks the key "0" (= `generateKey 0`), a mount whose random draw is again
0 returns the same key "0" (overwriting the tracked entry), and the
immediate unmount with the returned key then leaves the registry NOT
tracking "0" — the round trip does not restore the entries tracked before
the mount. -/
theorem C6_counterexample :
    lookupConfirm sOne.confirms (generateKey 0) = some ⟨1, 2⟩ ∧
    (mount false none okFS 3 4 none 0 sOne).1 = Except.ok (generateKey 0) ∧
    lookupConfirm
      (mountThenUnmount false none okFS okFS 3 4 none 0 sOne).confirms
      (generateKey 0) = none :=
  ⟨rfl, rfl, rfl⟩

/-- C6 (amended): for every component, props, and starting registry state
in which the generated key is not already tracked, a successful mount
followed immediately by an unmount with the returned key (with teardown
succeeding) leaves the registry exactly as it was before the mount (so
zero entries when starting from an empty registry), with the created
wrapper node detached and its rendering root unmounted. -/
theorem C6_mount_unmount_roundtrip (hm : Bool) (dmn : Option Nat)
    (fs1 fs2 : FailSpec) (comp props r : Nat) (mn : Option Nat) (s : MState)
    (hfresh : lookupConfirm s.confirms (generateKey r) = none)
    (h1 : fs1.resolveErr = none) (h2 : fs1.appendErr = none)
    (h3 : fs1.createRootErr = none) (h4 : fs1.renderErr = none)
    (h5 : fs2.rootUnmountErr = none) (h6 : fs2.removeErr = none) :
    (mountThenUnmount hm dmn fs1 fs2 comp props mn r s).confirms = s.confirms ∧
    ({ id := s.nextId, parent := getParentNode dmn mn, attached := false } : DomNode)
      ∈ (mountThenUnmount hm dmn fs1 fs2 comp props mn r s).nodes ∧
    ({ id := s.nextId + 1, container := s.nextId, content := none,
       unmounted := true } : RootObj)
      ∈ (mountThenUnmount hm dmn fs1 fs2 comp props mn r s).roots := by
  have hbase : mountThenUnmount hm dmn fs1 fs2 comp props mn r s =
      (unmount fs2 (generateKey r) (mount hm dmn fs1 comp props mn r s).2.1).2.1 := rfl
  rw [hbase]
  simp only [mount, h1, h2, h3, h4]
  simp only [unmount, lookup_setConfirm_self]
  simp only [tryRootUnmount, h5, tryWrapperRemove, h6]
  refine ⟨?_, ?_, ?_⟩
  · rw [setConfirm, delConfirm_cons_eq, delConfirm_eq_self _ _ (lookup_delConfirm_self _ _),
      delConfirm_eq_self _ _ hfresh]
  · simp [detachNode_append, attachNode_append, detachNode, attachNode]
  · simp [unmountRoot_append, renderRoot_append, unmountRoot, renderRoot]

/-- Witness for C6: a mount-then-unmount round trip from the empty world
leaves the registry with zero entries and the created wrapper (id 1)
detached with its root (id 2) unmounted. -/
theorem C6_witness :
    (mountThenUnmount false none okFS okFS 1 2 none 0 initState).confirms =
      initState.confirms ∧
    ({ id := initState.nextId, parent := getParentNode none none,
       attached := false } : DomNode)
      ∈ (mountThenUnmount false none okFS okFS 1 2 none 0 initState).nodes ∧
    ({ id := initState.nextId + 1, container := initState.nextId, content := none,
       unmounted := true } : RootObj)
      ∈ (mountThenUnmount false none okFS okFS 1 2 none 0 initState).roots :=
  C6_mount_unmount_roundtrip false none okFS okFS 1 2 0 none initState
    rfl rfl rfl rfl rfl rfl rfl

theorem run_append (hm : Bool) (dmn : Option Nat) (s : MState) (l1 l2 : List Op) :
    run hm dmn s (l1 ++ l2) = run hm dmn (run hm dmn s l1) l2 := by
  induction l1 generalizing s with
  | nil => rfl
  | cons op rest ih => simp [run, ih]

theorem mem_keys_mount (hm : Bool) (dmn : Option Nat) (fs : FailSpec)
    (comp props : Nat) (mn : Option Nat) (r : Nat) (s : MState) (k : String)
    (h : k ∈ keysOf (mount hm dmn fs comp props mn r s).2.1.confirms) :
    k ∈ keysOf s.confirms ∨ k = generateKey r := by
  cases h1 : fs.resolveErr with
  | some e =>
      simp only [mount, h1] at h
      exact Or.inl (mem_keys_delConfirm _ _ _ h)
  | none =>
  cases h2 : fs.appendErr with
  | some e =>
      simp only [mount, h1, h2] at h
      exact Or.inl (mem_keys_delConfirm _ _ _ h)
  | none =>
  cases h3 : fs.createRootErr with
  | some e =>
      simp only [mount, h1, h2, h3] at h
      exact Or.inl (mem_keys_delConfirm _ _ _ h)
  | none =>
  cases h4 : fs.renderErr with
  | some e =>
      simp only [mount, h1, h2, h3, h4] at h
      rcases mem_keys_setConfirm _ _ _ _ (mem_keys_delConfirm _ _ _ h) with h5 | h5
      · exact Or.inr h5
      · exact Or.inl h5
  | none =>
      simp only [mount, h1, h2, h3, h4] at h
      rcases mem_keys_setConfirm _ _ _ _ h with h5 | h5
      · exact Or.inr h5
      · exact Or.inl h5

theorem mem_keys_unmount (fs : FailSpec) (k0 : String) (s : MState) (k : String)
    (h : k ∈ keysOf (unmount fs k0 s).2.1.confirms) : k ∈ keysOf s.confirms := by
  cases hl : lookupConfirm s.confirms k0 with
  | none =>
      rw [unmount_noop_of_none fs k0 s hl] at h
      exact h
  | some e =>
      rw [unmount_confirms_of_some fs k0 s e hl] at h
      exact mem_keys_delConfirm _ _ _ h

theorem mem_keys_step (hm : Bool) (dmn : Option Nat) (s : MState) (op : Op)
    (k : String) (h : k ∈ keysOf (step hm dmn s op).confirms) :
    k ∈ keysOf s.confirms ∨ opGenKey op = some k := by
  cases op with
  | mountOp fs comp props mn r =>
      rcases mem_keys_mount hm dmn fs comp props mn r s k h with h1 | h1
      · exact Or.inl h1
      · exact Or.inr (by rw [opGenKey, h1])
  | unmountOp fs key => exact Or.inl (mem_keys_unmount fs key s k h)

theorem mem_keys_run (hm : Bool) (dmn : Option Nat) (l : List Op) (s : MState)
    (k : String) (h : k ∈ keysOf (run hm dmn s l).confirms) :
    k ∈ keysOf s.confirms ∨ ∃ op ∈ l, opGenKey op = some k := by
  induction l generalizing s with
  | nil => exact Or.inl h
  | cons op rest ih =>
      rcases ih (step hm dmn s op) h with h1 | ⟨op1, hmem, hgen⟩
      · rcases mem_keys_step hm dmn s op k h1 with h2 | h2
        · exact Or.inl h2
        · exact Or.inr ⟨op, List.mem_cons_self op rest, h2⟩
      · exact Or.inr ⟨op1, List.mem_cons_of_mem op hmem, hgen⟩

theorem not_mem_keys_run (hm : Bool) (dmn : Option Nat) (l : List Op) (s : MState)
    (k : String) (h0 : k ∉ keysOf s.confirms)
    (hgen : ∀ op ∈ l, opGenKey op ≠ some k) :
    k ∉ keysOf (run hm dmn s l).confirms := by
  intro hmem
  rcases mem_keys_run hm dmn l s k hmem with h | ⟨op, hop, hg⟩
  · exact h0 h
  · exact hgen op hop hg

theorem nodup_keys_mount (hm : Bool) (dmn : Option Nat) (fs : FailSpec)
    (comp props : Nat) (mn : Option Nat) (r : Nat) (s : MState)
    (h : (keysOf s.confirms).Nodup) :
    (keysOf (mount hm dmn fs comp props mn r s).2.1.confirms).Nodup := by
  cases h1 : fs.resolveErr with
  | some e =>
      simp only [mount, h1]
      exact nodup_keys_delConfirm _ _ h
  | none =>
  cases h2 : fs.appendErr with
  | some e =>
      simp only [mount, h1, h2]
      exact nodup_keys_delConfirm _ _ h
  | none =>
  cases h3 : fs.createRootErr with
  | some e =>
      simp only [mount, h1, h2, h3]
      exact nodup_keys_delConfirm _ _ h
  | none =>
  cases h4 : fs.renderErr with
  | some e =>
      simp only [mount, h1, h2, h3, h4]
      exact nodup_keys_delConfirm _ _ (nodup_keys_setConfirm _ _ _ h)
  | none =>
      simp only [mount, h1, h2, h3, h4]
      exact nodup_keys_setConfirm _ _ _ h

theorem nodup_keys_unmount (fs : FailSpec) (k0 : String) (s : MState)
    (h : (keysOf s.confirms).Nodup) :
    (keysOf (unmount fs k0 s).2.1.confirms).Nodup := by
  cases hl : lookupConfirm s.confirms k0 with
  | none => rw [unmount_noop_of_none fs k0 s hl]; exact h
  | some e =>
      rw [unmount_confirms_of_some fs k0 s e hl]
      exact nodup_keys_delConfirm _ _ h

theorem nodup_keys_step (hm : Bool) (dmn : Option Nat) (s : MState) (op : Op)
    (h : (keysOf s.confirms).Nodup) : (keysOf (step hm dmn s op).confirms).Nodup := by
  cases op with
  | mountOp fs comp props mn r => exact nodup_keys_mount hm dmn fs comp props mn r s h
  | unmountOp fs key => exact nodup_keys_unmount fs key s h

theorem nodup_keys_run (hm : Bool) (dmn : Option Nat) (l : List Op) (s : MState)
    (h : (keysOf s.confirms).Nodup) : (keysOf (run hm dmn s l).confirms).Nodup := by
  induction l generalizing s with
  | nil => exact h
  | cons op rest ih => exact ih (step hm dmn s op) (nodup_keys_step hm dmn s op h)

theorem genKeys_append (l1 l2 : List Op) :
    genKeys (l1 ++ l2) = genKeys l1 ++ genKeys l2 := by
  simp [genKeys]

theorem genKeys_cons_mount (fs : FailSpec) (comp props : Nat) (mn : Option Nat)
    (r : Nat) (l : List Op) :
    genKeys (Op.mountOp fs comp props mn r :: l) = generateKey r :: genKeys l := by
  simp [genKeys, opGenKey]

theorem genKeys_cons_unmount (fs : FailSpec) (k : String) (l : List Op) :
    genKeys (Op.unmountOp fs k :: l) = genKeys l := by
  simp [genKeys, opGenKey]

theorem mem_genKeys_of_mem_keys_run (hm : Bool) (dmn : Option Nat) (l : List Op)
    (k : String) (h : k ∈ keysOf (run hm dmn initState l).confirms) :
    k ∈ genKeys l := by
  rcases mem_keys_run hm dmn l initState k h with h1 | ⟨op, hop, hg⟩
  · simp [initState, keysOf] at h1
  · exact List.mem_filterMap.mpr ⟨op, hop, hg⟩

/-- C1 counterexample: the code never checks freshness of the random key.
With the random draw 0 repeated, a mount on the world `sOne` (which
already tracks key `generateKey 0`) returns that very key — a key tracked
in the registry at the moment of creation — and after unmounting that key
a further mount with draw 0 tracks it again (resurrection). -/
theorem C1_counterexample :
    generateKey 0 ∈ keysOf sOne.confirms ∧
    (mount false none okFS 3 4 none 0 sOne).1 = Except.ok (generateKey 0) ∧
    generateKey 0 ∈ keysOf
      (mount false none okFS 5 6 none 0
        (unmount okFS (generateKey 0) sOne).2.1).2.1.confirms :=
  ⟨by decide, rfl, by decide⟩

/-- C1 (amended): for every sequence of mount and unmount operations whose
random draws generate pairwise-distinct keys, starting from the empty
world: the registry keys are duplicate-free at every moment (at most one
entry per key), the key of each mount call is distinct from every key
tracked in the registry at the moment of creation, and a key removed by an
unmount is never tracked again afterwards. -/
theorem C1_key_uniqueness (hm : Bool) (dmn : Option Nat) (ops : List Op)
    (hnd : (genKeys ops).Nodup) :
    (∀ pre post, ops = pre ++ post →
      (keysOf (run hm dmn initState pre).confirms).Nodup) ∧
    (∀ pre fs comp props mn r post,
      ops = pre ++ Op.mountOp fs comp props mn r :: post →
      generateKey r ∉ keysOf (run hm dmn initState pre).confirms) ∧
    (∀ pre fsu k mid post, ops = pre ++ Op.unmountOp fsu k :: mid ++ post →
      k ∈ keysOf (run hm dmn initState pre).confirms →
      k ∉ keysOf (run hm dmn initState (pre ++ Op.unmountOp fsu k :: mid)).confirms) := by
  refine ⟨?_, ?_, ?_⟩
  · intro pre post heq
    exact nodup_keys_run hm dmn pre initState (by simp [initState, keysOf])
  · intro pre fs comp props mn r post heq hmem
    have hg : generateKey r ∈ genKeys pre :=
      mem_genKeys_of_mem_keys_run hm dmn pre (generateKey r) hmem
    subst heq
    rw [genKeys_append, genKeys_cons_mount] at hnd
    obtain ⟨hn1, hn2, hdisj⟩ := List.nodup_append.mp hnd
    exact absurd (List.mem_cons_self _ _) (hdisj hg)
  · intro pre fsu k mid post heq hpre
    have hkpre : k ∈ genKeys pre := mem_genKeys_of_mem_keys_run hm dmn pre k hpre
    subst heq
    rw [genKeys_append, genKeys_append, genKeys_cons_unmount] at hnd
    obtain ⟨hn1, hn2, hdisj⟩ := List.nodup_append.mp (List.Nodup.of_append_left hnd)
    rw [run_append]
    have hstep : run hm dmn (run hm dmn initState pre) (Op.unmountOp fsu k :: mid) =
        run hm dmn (step hm dmn (run hm dmn initState pre) (Op.unmountOp fsu k)) mid :=
      rfl
    rw [hstep]
    apply not_mem_keys_run
    · exact (lookup_none_iff_not_mem_keys _ _).mp
        (lookup_unmount_self fsu k (run hm dmn initState pre))
    · intro op hop hgen
      exact hdisj hkpre (List.mem_filterMap.mpr ⟨op, hop, hgen⟩)

/-- Witness for C1: the three-operation sequence mount(draw 0),
unmount("0"), mount(draw 1) has pairwise-distinct generated keys, and the
theorem yields that the third operation's key is untracked at the moment
of its creation. -/
theorem C1_witness :
    generateKey 1 ∉ keysOf (run false none initState
      [Op.mountOp okFS 1 2 none 0, Op.unmountOp okFS (generateKey 0)]).confirms :=
  (C1_key_uniqueness false none
      [Op.mountOp okFS 1 2 none 0, Op.unmountOp okFS (generateKey 0),
       Op.mountOp okFS 3 4 none 1] (by decide)).2.1
    [Op.mountOp okFS 1 2 none 0, Op.unmountOp okFS (generateKey 0)]
    okFS 3 4 none 1 [] rfl

/-- Witness for C10 at a concrete mount on the empty world. -/
theorem C10_witness :
    Ev.mountedCallback ∉ ((createDomTreeMounter none).mount 1 2 none 0 okFS initState).2.2 :=
  C10_mounted_callback_unreachable none 1 2 none 0 okFS initState
